import Mathlib

/-!
Verification of the Qoriq data-quality core (profiler, issue detector,
quality scorer, bulk fixer) as implemented in `src/profiler.py`,
`src/validator.py`, `src/quality.py` and `src/fixer.py`.

The embedding is a shallow one: a pandas DataFrame becomes a `Table` of
named columns; a column is either numeric (list of optional rationals)
or object-dtyped (list of optional strings), mirroring how the code
branches on `pd.api.types.is_numeric_dtype` / `dtype == object`.
Python floats are modelled by rationals; library calls from pandas
(`pd.to_datetime`, `pd.to_numeric`, string formatting) are modelled by
executable Lean functions whose scope is noted in their doc comments.
-/

namespace Qoriq

/-! ## String utilities (models of Python str operations) -/

/-- Model of Python `str.lower()` (ASCII case folding, which is all the
source ever feeds it: column names and cell text). -/
def pyLower (s : String) : String := String.mk (s.data.map Char.toLower)

/-- Whitespace test used by `pyStrip`. -/
def isWS (c : Char) : Bool := c = ' ' || c = '\t' || c = '\n' || c = '\r'

/-- Model of Python `str.strip()`: drop leading and trailing whitespace. -/
def pyStrip (s : String) : String :=
  String.mk (((s.data.dropWhile isWS).reverse.dropWhile isWS).reverse)

/-- Is `pat` a contiguous prefix of `l`? -/
def isPrefixL : List Char → List Char → Bool
  | [], _ => true
  | _ :: _, [] => false
  | a :: as, b :: bs => a = b && isPrefixL as bs

/-- Is `pat` a contiguous substring of `l`?  Models Python `pat in s`. -/
def isInfixL (pat : List Char) : List Char → Bool
  | [] => isPrefixL pat []
  | c :: rest => isPrefixL pat (c :: rest) || isInfixL pat rest

/-- Model of Python `sub in s` for strings. -/
def strContains (s sub : String) : Bool := isInfixL sub.data s.data

/-- Model of Python `ch in s` for a single character. -/
def strHasChar (s : String) (ch : Char) : Bool := s.data.contains ch

/-- Split a character list on a separator character (model of `str.split(sep)`
restricted to the single-character separators the source uses). -/
def splitOnC (sep : Char) : List Char → List (List Char)
  | [] => [[]]
  | c :: rest =>
    let r := splitOnC sep rest
    if c = sep then [] :: r
    else
      match r with
      | [] => [[c]]
      | h :: t => (c :: h) :: t

/-- Are all characters decimal digits (and the list non-empty)? -/
def allDigits (cs : List Char) : Bool := !cs.isEmpty && cs.all Char.isDigit

/-- Decimal value of a digit list (caller checks `allDigits`). -/
def digitsVal (cs : List Char) : Nat := cs.foldl (fun n c => 10 * n + (c.toNat - 48)) 0

/-- Fixed-width zero-padded decimal rendering of a natural number,
modelling `%04d` / `%02d` in `strftime`. -/
def natPad (w n : Nat) : String :=
  let s := toString n
  String.mk (List.replicate (w - s.data.length) '0' ++ s.data)

/-! ## Date model -/

/-- Gregorian leap-year test. -/
def isLeap (y : Nat) : Bool := (y % 4 = 0 && y % 100 ≠ 0) || y % 400 = 0

/-- Days in a month of a given year. -/
def daysInMonth (y m : Nat) : Nat :=
  if m = 2 then (if isLeap y then 29 else 28)
  else if m = 4 || m = 6 || m = 9 || m = 11 then 30
  else 31

/-- A calendar date. -/
structure Date where
  year : Nat
  month : Nat
  day : Nat
deriving DecidableEq, Repr

/-- Is (year, month, day) a valid calendar date? -/
def validDate (y m d : Nat) : Bool :=
  1 ≤ m && m ≤ 12 && 1 ≤ d && d ≤ daysInMonth y m

/-- Model of `pandas.to_datetime(x, errors="coerce", dayfirst=df)` on a single
string, restricted to the formats the repository exercises:
`YYYY-MM-DD` (ISO) and `A/B/YYYY` slash dates.  A slash date is read
month-first unless `dayfirst` is set, and fails when that reading is not a
valid calendar date — so `"15/03/2023"` fails the default pass and succeeds
on the day-first retry, the dual-pass behaviour the source's tests
describe.  Every other string fails to parse (`none`), matching the
coercing parser on the non-date strings appearing in this development. -/
def to_datetime (dayfirst : Bool) (s : String) : Option Date :=
  let cs := s.data
  let dash := splitOnC '-' cs
  match dash with
  | [a, b, c] =>
    if allDigits a && a.length = 4 && allDigits b && b.length ≤ 2 &&
        allDigits c && c.length ≤ 2 && validDate (digitsVal a) (digitsVal b) (digitsVal c) then
      some ⟨digitsVal a, digitsVal b, digitsVal c⟩
    else none
  | _ =>
    let slash := splitOnC '/' cs
    match slash with
    | [a, b, c] =>
      if allDigits a && a.length ≤ 2 && allDigits b && b.length ≤ 2 &&
          allDigits c && c.length = 4 then
        let y := digitsVal c
        let fields : Nat × Nat :=
          if dayfirst then (digitsVal b, digitsVal a) else (digitsVal a, digitsVal b)
        if validDate y fields.1 fields.2 then some ⟨y, fields.1, fields.2⟩ else none
      else none
    | _ => none

/-- Model of `Timestamp.strftime("%Y-%m-%d")`: zero-padded ISO date text. -/
def isoStr (d : Date) : String :=
  natPad 4 d.year ++ "-" ++ natPad 2 d.month ++ "-" ++ natPad 2 d.day

/-! ## Exact rational numbers

Python floats are modelled by exact fractions.  Mathlib's `ℚ` is avoided
because its arithmetic does not reduce inside the kernel, and every claim
here is settled by computation; `Frac` keeps a normalized
numerator/denominator pair using only `Nat`/`Int` primitives, so derived
structural equality coincides with numeric equality on constructed values. -/

/-- A normalized fraction: `den` is positive and coprime to `num` for every
value built through the operations below. -/
structure Frac where
  num : Int
  den : Nat
deriving DecidableEq, Repr

/-- Build the normalized fraction `n / d` (with the `0/0 = 0` convention for
`d = 0`, which only ever feeds positions the source guards against). -/
def Frac.norm (n : Int) (d : Nat) : Frac :=
  if d = 0 then ⟨0, 1⟩
  else
    let g := Nat.gcd n.natAbs d
    ⟨Int.tdiv n g, d / g⟩

/-- Embed a natural number. -/
def Frac.ofNat (n : Nat) : Frac := ⟨n, 1⟩

/-- Embed an integer. -/
def Frac.ofInt (n : Int) : Frac := ⟨n, 1⟩

/-- The exact ratio of two counts (`0` when the denominator is `0`). -/
def Frac.ratio (a b : Nat) : Frac := Frac.norm a b

def Frac.add (a b : Frac) : Frac :=
  Frac.norm (a.num * b.den + b.num * a.den) (a.den * b.den)

def Frac.sub (a b : Frac) : Frac :=
  Frac.norm (a.num * b.den - b.num * a.den) (a.den * b.den)

def Frac.mul (a b : Frac) : Frac := Frac.norm (a.num * b.num) (a.den * b.den)

/-- Division with the same `x / 0 = 0` convention. -/
def Frac.div (a b : Frac) : Frac :=
  if b.num = 0 then ⟨0, 1⟩
  else if 0 < b.num then Frac.norm (a.num * b.den) (a.den * b.num.toNat)
  else Frac.norm (-(a.num * b.den)) (a.den * (-b.num).toNat)

/-- Semantic order, by cross multiplication (denominators are positive on
all constructed values). -/
def Frac.le (a b : Frac) : Bool := a.num * b.den ≤ b.num * a.den

def Frac.lt (a b : Frac) : Bool := a.num * b.den < b.num * a.den

/-- Sum of a list of fractions. -/
def Frac.sum (l : List Frac) : Frac := l.foldl Frac.add ⟨0, 1⟩

/-- `⌊q + 1/2⌋`, the round-half-up integer nearest `q` (models Python
`round` on the exact value; the two can differ only at exact halves,
which no claim exercises). -/
def Frac.roundInt (q : Frac) : Int := Int.fdiv (2 * q.num + q.den) (2 * q.den)

/-! ## Numeric-text models -/

/-- Model of `pandas.to_numeric(x, errors="coerce")` on a single string:
an optional sign followed by digits, optionally a decimal point and more
digits.  Other strings (including empty) coerce to `none` (NaN). -/
def to_numeric (s : String) : Option Frac :=
  let cs := (pyStrip s).data
  let signBody : Int × List Char :=
    match cs with
    | '-' :: rest => (-1, rest)
    | '+' :: rest => (1, rest)
    | rest => (1, rest)
  match splitOnC '.' signBody.2 with
  | [intPart] =>
    if allDigits intPart then some (Frac.ofInt (signBody.1 * digitsVal intPart)) else none
  | [intPart, fracPart] =>
    if allDigits intPart && allDigits fracPart then
      some (Frac.norm (signBody.1 * (digitsVal intPart * 10 ^ fracPart.length + digitsVal fracPart))
        (10 ^ fracPart.length))
    else none
  | _ => none

/-- Model of `astype(str)` on a numeric cell value.  Integers render as
decimal; non-integers as numerator-dot-denominator text.  The rendering only
needs to be deterministic and free of `'@'` and of date shapes, which it is;
no claim compares a numeric rendering against a specific Python float string. -/
def ratStr (q : Frac) : String :=
  if q.den = 1 then toString q.num
  else toString q.num ++ "." ++ toString q.den

/-- Model of Python `f"{x:.2%}"`: percentage with two decimals (used only
inside advisory `description` strings, which no transform re-parses). -/
def fmtPct2 (q : Frac) : String :=
  let n : Int := (q.mul (Frac.ofNat 10000)).roundInt
  toString (Int.fdiv n 100) ++ "." ++ natPad 2 (n % 100).toNat ++ "%"

/-- Round to three decimal places, modelling `round(x, 3)`. -/
def round3 (q : Frac) : Frac :=
  Frac.norm ((q.mul (Frac.ofNat 1000)).roundInt) 1000

/-! ## Data model: tables and columns -/

/-- A DataFrame column.  The source branches on
`pd.api.types.is_numeric_dtype(ser)` versus `ser.dtype == object`; a numeric
column holds optional rationals (NaN = `none`), an object column holds
optional strings (as produced by CSV ingestion). -/
inductive Col
  | numeric (vals : List (Option Frac))
  | object (vals : List (Option String))
deriving DecidableEq, Repr

/-- A DataFrame: a positional row count and ordered named columns. -/
structure Table where
  nrows : Nat
  cols : List (String × Col)
deriving DecidableEq, Repr

def Col.len : Col → Nat
  | .numeric v => v.length
  | .object v => v.length

def Col.isNumericDtype : Col → Bool
  | .numeric _ => true
  | .object _ => false

/-- Count of missing (NaN) cells — `isna().sum()`. -/
def Col.missingCount : Col → Nat
  | .numeric v => (v.filter Option.isNone).length
  | .object v => (v.filter Option.isNone).length

/-- Count of non-missing cells — `notna().sum()`. -/
def Col.notnaCount (c : Col) : Nat := c.len - c.missingCount

/-- `dropna().astype(str)`: the non-missing values as text, in order. -/
def Col.dropnaStr : Col → List String
  | .numeric v => (v.filterMap id).map ratStr
  | .object v => v.filterMap id

/-- `astype(str)`: all values as text, with NaN rendered `"nan"`. -/
def Col.strs : Col → List String
  | .numeric v => v.map (fun x => (x.map ratStr).getD "nan")
  | .object v => v.map (fun x => x.getD "nan")

/-- `fillna("__QORIQ_NAN__").astype(str)`: the fixer's change-accounting
string view of a column. -/
def Col.sentStrs : Col → List String
  | .numeric v => v.map (fun x => (x.map ratStr).getD "__QORIQ_NAN__")
  | .object v => v.map (fun x => x.getD "__QORIQ_NAN__")

/-- Remove duplicates keeping first occurrences (accumulator form). -/
def uniqAux {α : Type} [DecidableEq α] : List α → List α → List α
  | _, [] => []
  | seen, x :: r => if x ∈ seen then uniqAux seen r else x :: uniqAux (x :: seen) r

/-- Remove duplicates keeping first occurrences. -/
def uniqList {α : Type} [DecidableEq α] (l : List α) : List α := uniqAux [] l

/-- `nunique(dropna=True)`: number of distinct non-missing values. -/
def Col.nunique : Col → Nat
  | .numeric v => (uniqList (v.filterMap id)).length
  | .object v => (uniqList (v.filterMap id)).length

/-- A cell viewed as a tagged value, for row-equality tests in
`duplicated` (pandas treats NaN as equal to NaN there). -/
def Col.cellAt : Col → Nat → Option (Frac ⊕ String)
  | .numeric v, i => (v.getD i none).map Sum.inl
  | .object v, i => (v.getD i none).map Sum.inr

/-- The column names, in order. -/
def Table.names (t : Table) : List String := t.cols.map Prod.fst

/-- Look a column up by name (pandas `df[c]`; names are unique in a
well-formed table). -/
def Table.getCol? (t : Table) (c : String) : Option Col :=
  (t.cols.find? (fun p => p.1 = c)).map Prod.snd

def Table.hasCol (t : Table) (c : String) : Bool := t.names.contains c

/-- Well-formedness: every column has `nrows` cells and names are unique. -/
def Table.WF (t : Table) : Prop :=
  (∀ p ∈ t.cols, Col.len p.2 = t.nrows) ∧ t.names.Nodup

instance (t : Table) : Decidable t.WF := by
  unfold Table.WF; infer_instance

/-! ## Strict email pattern

`EMAIL_RE = ^[A-Za-z0-9._%+-]+@[A-Za-z0-9.-]+\.[A-Za-z]{2,}$`, shared by
`validator._email_re` and `fixer.EMAIL_RE`. -/

def isLocalChar (c : Char) : Bool :=
  c.isAlpha || c.isDigit || c = '.' || c = '_' || c = '%' || c = '+' || c = '-'

def isDomainChar (c : Char) : Bool := c.isAlpha || c.isDigit || c = '.' || c = '-'

/-- Decision procedure for `EMAIL_RE`: the string splits at a single `@`
into a non-empty local part over the local character class and a domain
that ends in a dot followed by a 2+ letter TLD, with a non-empty
domain body before that final dot.  (The TLD is all-letters, so the dot
before it is necessarily the last dot — regex backtracking finds exactly
this decomposition.) -/
def validEmail (s : String) : Bool :=
  match splitOnC '@' s.data with
  | [loc, dom] =>
    let segs := splitOnC '.' dom
    !loc.isEmpty && loc.all isLocalChar && dom.all isDomainChar &&
    decide (2 ≤ segs.length) &&
    (match segs.getLast? with
     | some tld => decide (2 ≤ tld.length) && tld.all Char.isAlpha &&
         decide (tld.length + 2 ≤ dom.length)
     | none => false)
  | _ => false

/-! ## Profiler (`src/profiler.py`) -/

/-- A value slot in the JSON-serializable report: the Python `None`,
a float NaN, or a finite number. -/
inductive PyVal
  | null
  | nan
  | num (q : Frac)
deriving DecidableEq, Repr

/-- Minimum of the non-missing values (requires a non-empty list). -/
def fracMin (l : List Frac) : Option Frac :=
  l.foldl (fun acc x => match acc with
    | none => some x
    | some m => some (if Frac.le x m then x else m)) none

def fracMax (l : List Frac) : Option Frac :=
  l.foldl (fun acc x => match acc with
    | none => some x
    | some m => some (if Frac.le m x then x else m)) none

/-- Arithmetic mean (of a non-empty list). -/
def fracMean (l : List Frac) : Frac :=
  (Frac.sum l).div (Frac.ofNat l.length)

/-- Sample variance, `Σ (x - mean)² / (n - 1)`.  `pandas.Series.std()` is
its square root (NaN when `n ≤ 1`, since `ddof = 1`). -/
def sampleVar (l : List Frac) : Frac :=
  let m := fracMean l
  (Frac.sum (l.map (fun x => (x.sub m).mul (x.sub m)))).div (Frac.ofNat (l.length - 1))

/-- The `std` report slot: `series.std()` is NaN for a single value and a
finite float otherwise; the finite case is modelled by the variance (its
square), which preserves presence, zero-ness and order — no claim inspects
the magnitude itself. -/
def stdSlot (l : List Frac) : PyVal :=
  if l.length ≤ 1 then PyVal.nan else PyVal.num (sampleVar l)

/-- Insert into a count-descending list, after entries of equal count
(stable). -/
def insertByCount (x : String × Nat) : List (String × Nat) → List (String × Nat)
  | [] => [x]
  | y :: r => if y.2 < x.2 then x :: y :: r else y :: insertByCount x r

def sortByCountDesc : List (String × Nat) → List (String × Nat)
  | [] => []
  | x :: r => insertByCount x (sortByCountDesc r)

/-- `value_counts().head(top_k).to_dict()`: distinct values with their
counts, most frequent first (ties in first-seen order), truncated to
`top_k`. -/
def topCounts (l : List String) (k : Nat) : List (String × Nat) :=
  (sortByCountDesc ((uniqList l).map (fun s => (s, l.count s)))).take k

/-- Per-column profile entry.  `num_stats` (min, max, mean, std) is present
exactly for numeric columns — `none` models the keys being absent from the
Python dict; `top_values` is present exactly for non-numeric columns. -/
structure ColReport where
  dtype : String
  n_missing : Nat
  pct_missing : Frac
  num_stats : Option (PyVal × PyVal × PyVal × PyVal)
  top_values : Option (List (String × Nat))
  n_unique : Nat
deriving DecidableEq, Repr

structure ProfileReport where
  n_rows : Nat
  n_columns : Nat
  columns : List (String × ColReport)
deriving DecidableEq, Repr

/-- Profile one column (`str(series.dtype)` is modelled as `"float64"` for
numeric and `"object"` otherwise). -/
def profileCol (c : Col) (top_k : Nat) : ColReport :=
  let pct := if 0 < c.len then Frac.ratio c.missingCount c.len else Frac.ofNat 0
  match c with
  | .numeric v =>
    let nm := v.filterMap id
    { dtype := "float64", n_missing := c.missingCount, pct_missing := pct
      num_stats := some (if nm.isEmpty then (PyVal.null, PyVal.null, PyVal.null, PyVal.null)
        else ((fracMin nm).elim PyVal.null PyVal.num,
              (fracMax nm).elim PyVal.null PyVal.num,
              PyVal.num (fracMean nm), stdSlot nm))
      top_values := none, n_unique := c.nunique }
  | .object _ =>
    { dtype := "object", n_missing := c.missingCount, pct_missing := pct
      num_stats := none, top_values := some (topCounts c.dropnaStr top_k)
      n_unique := c.nunique }

/-- `profile_dataframe(df, top_k)` from `src/profiler.py`. -/
def profile_dataframe (t : Table) (top_k : Nat) : ProfileReport :=
  { n_rows := t.nrows, n_columns := t.cols.length
    columns := t.cols.map (fun p => (p.1, profileCol p.2 top_k)) }

/-! ## Issue detector (`src/validator.py`) -/

/-- One detected issue, as the dict built by the validator. -/
structure Issue where
  title : String
  type : String
  severity : String
  columns : List String
  description : String
  suggested_fix : String
deriving DecidableEq, Repr

/-- `_high_missing`: flag columns whose missing fraction reaches the
threshold (and is positive). -/
def _high_missing (t : Table) (thresh : Frac) : List Issue :=
  t.cols.filterMap (fun p =>
    let pct := if 0 < t.nrows then Frac.ratio p.2.missingCount p.2.len else Frac.ofNat 0
    if Frac.le thresh pct && Frac.lt (Frac.ofNat 0) pct then
      some { title := "High missing rate in column '" ++ p.1 ++ "'"
             type := "missing_high"
             severity := if Frac.le (Frac.norm 1 2) pct then "high" else "medium"
             columns := [p.1]
             description := "Column '" ++ p.1 ++ "' has " ++ fmtPct2 pct ++
               " missing values (" ++ toString p.2.missingCount ++ " missing)."
             suggested_fix := "Consider filling missing values, dropping rows, or imputing (median for numeric / empty or mode for categorical)." }
    else none)

/-- `df.duplicated(subset=[c]).sum()`: rows whose value equals an earlier
row's value in this column (NaN counts as equal to NaN). -/
def dupCountCol (c : Col) : Nat :=
  ((List.range c.len).filter
    (fun i => (List.range i).any (fun j => c.cellAt j = c.cellAt i))).length

/-- `_duplicates`: duplicate values in identifier-named columns. -/
def _duplicates (t : Table) : List Issue :=
  t.cols.filterMap (fun p =>
    if pyLower p.1 = "id" || pyLower p.1 = "user_id" || pyLower p.1 = "userid" then
      let ndup := dupCountCol p.2
      if 0 < ndup then
        some { title := "Duplicate values in id column '" ++ p.1 ++ "'"
               type := "duplicate_rows", severity := "high", columns := [p.1]
               description := "Column '" ++ p.1 ++ "' has " ++ toString ndup ++ " duplicate rows."
               suggested_fix := "Investigate duplicates; consider deduplicating by keeping the most recent or aggregated record." }
      else none
    else none)

/-- `_dtype_mismatch`: object columns that are ≥80% (but not 100%)
numerically coercible. -/
def _dtype_mismatch (t : Table) : List Issue :=
  t.cols.filterMap (fun p =>
    match p.2 with
    | .numeric _ => none
    | .object v =>
      let n := t.nrows
      let numNonNa := ((v.filterMap id).filter (fun s => (to_numeric s).isSome)).length
      if 0 < n && Frac.le (Frac.norm 4 5) (Frac.ratio numNonNa n) && numNonNa < n then
        some { title := "Possible numeric column stored as object '" ++ p.1 ++ "'"
               type := "dtype_mismatch", severity := "medium", columns := [p.1]
               description := "Column '" ++ p.1 ++ "' looks mostly numeric (" ++
                 toString numNonNa ++ "/" ++ toString n ++ " values) but contains non-numeric entries."
               suggested_fix := "Coerce column to numeric and inspect non-numeric rows; fix formatting (commas, currency symbols) or missing markers." }
      else none)

/-- `_invalid_emails`: object columns containing an `@` somewhere, with at
least one non-missing value failing the strict pattern. -/
def _invalid_emails (t : Table) : List Issue :=
  t.cols.filterMap (fun p =>
    match p.2 with
    | .numeric _ => none
    | .object v =>
      let ds := (Col.object v).dropnaStr
      if ds.any (fun s => strHasChar s '@') then
        let total := ds.length
        if total = 0 then none
        else
          let valid := (ds.filter validEmail).length
          let invalid := total - valid
          if 0 < invalid then
            some { title := "Invalid email addresses in '" ++ p.1 ++ "'"
                   type := "invalid_email"
                   severity := if Frac.lt (Frac.ratio invalid total) (Frac.norm 1 5)
                     then "medium" else "high"
                   columns := [p.1]
                   description := "Column '" ++ p.1 ++ "' has " ++ toString invalid ++ "/" ++
                     toString total ++ " invalid-looking email values."
                   suggested_fix := "Validate emails, remove or correct invalid addresses, or mask them if PII-sensitive." }
          else none
      else none)

/-- `_date_parse_issues`: object columns where a 200-value sample of the
non-missing values parses as dates only partially. -/
def _date_parse_issues (t : Table) : List Issue :=
  t.cols.filterMap (fun p =>
    match p.2 with
    | .numeric _ => none
    | .object v =>
      let sample := (Col.object v).dropnaStr.take 200
      if sample.isEmpty then none
      else
        let nParsed := (sample.filter (fun s => (to_datetime false s).isSome)).length
        if 0 < nParsed && nParsed < sample.length then
          some { title := "Column '" ++ p.1 ++ "' contains partially parseable dates"
                 type := "date_partial_parse", severity := "medium", columns := [p.1]
                 description := "Column '" ++ p.1 ++ "' had " ++ toString nParsed ++ "/" ++
                   toString sample.length ++ " sample values parseable as dates."
                 suggested_fix := "Standardize date formats or provide parsing rules when importing." }
        else none)

/-- The issue `_constant_columns` builds for column `c` with `n` distinct
non-missing values. -/
def constantColIssue (c : String) (n : Nat) : Issue :=
  { title := "Constant or near-constant column '" ++ c ++ "'"
    type := "constant_column", severity := "low", columns := [c]
    description := "Column '" ++ c ++ "' has " ++ toString n ++ " unique values."
    suggested_fix := "Drop this column if it provides no signal for modeling." }

/-- `_constant_columns`: at most one distinct non-missing value. -/
def _constant_columns (t : Table) : List Issue :=
  t.cols.filterMap (fun p =>
    if p.2.nunique ≤ 1 then some (constantColIssue p.1 p.2.nunique) else none)

/-- `_outliers`: numeric columns with ≥5 non-missing values and non-zero
standard deviation; `|z| > 4` is decided by squares, `(x - mean)² > 16·var`,
which is equivalent since `std = √var` and `var > 0`. -/
def _outliers (t : Table) : List Issue :=
  t.cols.filterMap (fun p =>
    match p.2 with
    | .object _ => none
    | .numeric v =>
      let ser := v.filterMap id
      if ser.length < 5 then none
      else
        let m := fracMean ser
        let var := sampleVar ser
        if var = Frac.ofNat 0 then none
        else
          let nOut := (ser.filter (fun x =>
            Frac.lt ((Frac.ofNat 16).mul var) ((x.sub m).mul (x.sub m)))).length
          if 0 < nOut then
            some { title := "Extreme outliers in '" ++ p.1 ++ "'"
                   type := "outliers", severity := "medium", columns := [p.1]
                   description := "Column '" ++ p.1 ++ "' has " ++ toString nOut ++ " values with |z| > 4."
                   suggested_fix := "Inspect outliers; consider winsorizing, clipping, or imputing if they are erroneous." }
          else none)

/-- The issue's dedup key. -/
def issueKey (it : Issue) : String × List String := (it.title, it.columns)

/-- The final dedup loop of `detect_issues`: keep an issue only if its
(title, columns) key has not been seen. -/
def dedupIssues : List (String × List String) → List Issue → List Issue
  | _, [] => []
  | seen, it :: rest =>
    if issueKey it ∈ seen then dedupIssues seen rest
    else it :: dedupIssues (issueKey it :: seen) rest

/-- `detect_issues(df, missing_threshold)` from `src/validator.py`. -/
def detect_issues (t : Table) (missing_threshold : Frac) : List Issue :=
  dedupIssues []
    (_high_missing t missing_threshold ++ _duplicates t ++ _dtype_mismatch t ++
     _invalid_emails t ++ _date_parse_issues t ++ _constant_columns t ++ _outliers t)

/-! ## Quality scorer (`src/quality.py`)

Scores are computed with the module-level default weights
(completeness 0.5, safety 0.5, all others 0.0); `set_scoring_weights`
mutates that process-wide default and is not modelled — every claim is
about the default configuration. -/

/-- `_normalize_missing_values` per cell: only the exactly-empty string is
reinterpreted as missing. -/
def normCell (x : Option String) : Option String := if x = some "" then none else x

/-- `df.replace("", np.nan)` on one column (numeric columns are untouched). -/
def Col.normalizeMissing : Col → Col
  | .object v => .object (v.map normCell)
  | c => c

def normalizeTable (t : Table) : Table :=
  { t with cols := t.cols.map (fun p => (p.1, p.2.normalizeMissing)) }

/-- `value_counts().iloc[0]`: the greatest multiplicity in the list. -/
def modeCount (l : List String) : Nat := (l.map (fun s => l.count s)).foldl max 0

/-- `_compute_consistency` (argument already normalized). -/
def consistencyScore (t : Table) : Frac :=
  let scores := t.cols.map (fun p =>
    let col := p.2.dropnaStr.map pyStrip
    if col.isEmpty then Frac.ofNat 1 else Frac.ratio (modeCount col) col.length)
  if scores.isEmpty then Frac.ofNat 100
  else (Frac.ofNat 100).mul ((Frac.sum scores).div (Frac.ofNat scores.length))

/-- `_compute_uniqueness`. -/
def uniquenessScore (t : Table) : Frac :=
  let scores := t.cols.map (fun p =>
    if p.2.notnaCount = 0 then Frac.ofNat 1 else Frac.ratio p.2.nunique p.2.notnaCount)
  if scores.isEmpty then Frac.ofNat 100
  else (Frac.ofNat 100).mul ((Frac.sum scores).div (Frac.ofNat scores.length))

/-- `_compute_validity`: cells whose stripped, lowered text is one of the
invalid tokens (NaN stringifies to `"nan"`, which is a token). -/
def validityScore (t : Table) : Frac :=
  let total := t.nrows * t.cols.length
  if total = 0 then Frac.ofNat 100
  else
    let tokens : List String := ["invalid", "error", "nan", "null"]
    let invalid := (t.cols.map (fun p =>
      (p.2.strs.filter (fun s => tokens.contains (pyLower (pyStrip s)))).length)).sum
    (Frac.ofNat 100).mul (Frac.ratio (total - invalid) total)

/-- `_compute_timeliness`: fraction of meaningful (non-missing, non-blank)
cells that parse as dates.  `pd.to_datetime` on a numeric series interprets
values as epochs and succeeds, so numeric cells all count as parsed. -/
def timelinessScore (t : Table) : Frac :=
  let contrib : List (Nat × Nat) := t.cols.map (fun p =>
    match p.2 with
    | .numeric v =>
      let nm := (v.filterMap id).map ratStr
      let masked := nm.filter (fun s => pyStrip s ≠ "")
      (masked.length, masked.length)
    | .object v =>
      let masked := (v.filterMap id).filter (fun s => pyStrip s ≠ "")
      (masked.length, (masked.filter (fun s => (to_datetime false s).isSome)).length))
  let total := (contrib.map Prod.fst).sum
  if total = 0 then Frac.ofNat 100
  else (Frac.ofNat 100).mul (Frac.ratio (contrib.map Prod.snd).sum total)

/-- Completeness: percent of non-missing cells (argument already
normalized). -/
def completenessScore (t : Table) : Frac :=
  let total := t.nrows * t.cols.length
  if total = 0 then Frac.ofNat 100
  else (Frac.ofNat 100).mul (Frac.ratio ((t.cols.map (fun p => p.2.notnaCount)).sum) total)

/-- Safety: percent of cells whose stripped, lowered text is not exactly
`"not-a-date"`. -/
def safetyScore (t : Table) : Frac :=
  let total := t.nrows * t.cols.length
  if total = 0 then Frac.ofNat 100
  else
    let unsafeCount := (t.cols.map (fun p =>
      (p.2.strs.filter (fun s => pyLower (pyStrip s) = "not-a-date")).length)).sum
    (Frac.ofNat 100).mul (Frac.ratio (total - unsafeCount) total)

/-- The weighted aggregation loop with the default module weights. -/
def qualityAgg (c s cons u val tim : Frac) : Frac :=
  (((((Frac.ofNat 0).add (c.mul (Frac.norm 1 2))).add (s.mul (Frac.norm 1 2))).add
    (cons.mul (Frac.ofNat 0))).add (u.mul (Frac.ofNat 0))).add
    ((val.mul (Frac.ofNat 0)).add (tim.mul (Frac.ofNat 0)))

/-- The metric dict returned by `score_dataframe`. -/
structure ScoreReport where
  completeness : Frac
  safety : Frac
  consistency : Frac
  uniqueness : Frac
  validity : Frac
  timeliness : Frac
  quality : Frac
deriving DecidableEq, Repr

/-- The all-100 report returned for an empty frame. -/
def perfectScore : ScoreReport :=
  { completeness := Frac.ofNat 100, safety := Frac.ofNat 100
    consistency := Frac.ofNat 100, uniqueness := Frac.ofNat 100
    validity := Frac.ofNat 100, timeliness := Frac.ofNat 100
    quality := Frac.ofNat 100 }

/-- Score an already-normalized table. -/
def scoreCore (t : Table) : ScoreReport :=
  let c := completenessScore t
  let s := safetyScore t
  let cons := consistencyScore t
  let u := uniquenessScore t
  let val := validityScore t
  let tim := timelinessScore t
  { completeness := round3 c, safety := round3 s, consistency := round3 cons
    uniqueness := round3 u, validity := round3 val, timeliness := round3 tim
    quality := round3 (qualityAgg c s cons u val tim) }

/-- `score_dataframe(df)` from `src/quality.py` (`df.empty` holds exactly
when some axis has length zero). -/
def score_dataframe (t : Table) : ScoreReport :=
  if t.nrows = 0 || t.cols.isEmpty then perfectScore
  else scoreCore (normalizeTable t)

/-! ## Bulk fixer (`src/fixer.py`) -/

/-- Ascending insertion into a sorted list. -/
def insertFrac (x : Frac) : List Frac → List Frac
  | [] => [x]
  | y :: r => if Frac.le x y then x :: y :: r else y :: insertFrac x r

def sortFrac : List Frac → List Frac
  | [] => []
  | x :: r => insertFrac x (sortFrac r)

/-- `Series.median(skipna=True)` on the non-missing values: middle element,
or the mean of the two middles for an even count; NaN (`none`) when empty. -/
def fracMedian (l : List Frac) : Option Frac :=
  let s := sortFrac l
  let n := s.length
  if n = 0 then none
  else if n % 2 = 1 then some (s.getD (n / 2) (Frac.ofNat 0))
  else some (((s.getD (n / 2 - 1) (Frac.ofNat 0)).add (s.getD (n / 2) (Frac.ofNat 0))).div
    (Frac.ofNat 2))

/-- The `missing_high` transform on one column: numeric columns are filled
with the skipna median when it exists, object columns with the empty
string. -/
def fillMissingCol (c : Col) : Col :=
  match c with
  | .numeric v =>
    match fracMedian (v.filterMap id) with
    | some m => .numeric (v.map (fun x => some (x.getD m)))
    | none => .numeric v
  | .object v => .object (v.map (fun x => some (x.getD "")))

/-- The `invalid_email` mask on one cell of the `astype(str)` view: a value
containing `@` that fails `_is_valid_email` is replaced by the empty
string; everything else is untouched (a missing cell stringifies to
`"nan"`, which has no `@`). -/
def maskEmailCell (x : Option String) : Option String :=
  match x with
  | none => none
  | some s => if strHasChar s '@' && !validEmail s then some "" else some s

/-- The `invalid_email` transform on one column.  Numeric renderings never
contain `@`, so numeric columns are untouched. -/
def maskEmailCol : Col → Col
  | .object v => .object (v.map maskEmailCell)
  | .numeric v => .numeric v

/-- `_coerce_numeric_if_mostly(ser, 0.8)`. -/
def _coerce_numeric_if_mostly (c : Col) : Col :=
  let coerced : List (Option Frac) :=
    match c with
    | .numeric v => v
    | .object v => v.map (fun x => x.bind to_numeric)
  if Frac.le (Frac.norm 4 5) (Frac.ratio (coerced.filterMap id).length (max 1 c.len)) then
    .numeric coerced
  else c

/-- The explicit null markers the date standardizer converts to missing. -/
def nullMarkers : List String := ["NA", "N/A", "null", "None"]

/-- One cell of `_standardize_dates_series`: null markers become missing;
otherwise parse (dayfirst off, then the day-first retry); a successful
parse is rewritten as ISO `YYYY-MM-DD`; a value failing both parses is
kept verbatim; missing stays missing. -/
def stdDateCell (x : Option String) : Option String :=
  match x with
  | none => none
  | some s =>
    if nullMarkers.contains s then none
    else
      match to_datetime false s with
      | some d => some (isoStr d)
      | none =>
        match to_datetime true s with
        | some d => some (isoStr d)
        | none => some s

/-- `_standardize_dates_series` on a column.  On a numeric column nothing
parses (numeric renderings are not date-shaped) and the `where` fallbacks
restore the original values, so the column is unchanged. -/
def _standardize_dates_series : Col → Col
  | .object v => .object (v.map stdDateCell)
  | .numeric v => .numeric v

/-- Append if not already present (models adding to a Python set; the
set's iteration order is unspecified in CPython, the list here fixes
first-insertion order — every downstream use is order-independent apart
from the advisory `date_columns_standardized` listing). -/
def insertUniq (l : List String) (c : String) : List String :=
  if l.contains c then l else l ++ [c]

/-- The name keys of `_guess_date_like_columns`. -/
def dateNameKeys : List String := ["date", "time", "timestamp", "close", "expected_close"]

/-- `_guess_date_like_columns(df, issues)`: name-keyed columns, plus
columns flagged `date_partial_parse`, plus columns whose (up to 1000-value)
non-missing sample is at least 5% date-parseable. -/
def _guess_date_like_columns (t : Table) (issues : List Issue) : List String :=
  let byName := (t.cols.filter
    (fun p => dateNameKeys.any (fun k => strContains (pyLower p.1) k))).map Prod.fst
  let withIssues := issues.foldl (fun acc it =>
    if it.type = "date_partial_parse" then
      it.columns.foldl (fun acc2 c => if t.hasCol c then insertUniq acc2 c else acc2) acc
    else acc) byName
  t.cols.foldl (fun acc p =>
    if acc.contains p.1 then acc
    else
      let ser := p.2.dropnaStr.take 1000
      if ser.isEmpty then acc
      else if Frac.le (Frac.norm 1 20)
          (Frac.ratio (ser.filter (fun s => (to_datetime false s).isSome)).length ser.length)
      then insertUniq acc p.1
      else acc) withIssues

/-- The date-like set actually standardized: the guess, always including a
column literally named `expected_close` when present. -/
def dateLikeCols (t : Table) (issues : List Issue) : List String :=
  let g := _guess_date_like_columns t issues
  if t.hasCol "expected_close" then insertUniq g "expected_close" else g

/-- Replace the named column by `f` of itself (no-op when absent — the
source's `if c not in pre_dedupe.columns: continue`). -/
def Table.mapCol (t : Table) (c : String) (f : Col → Col) : Table :=
  { t with cols := t.cols.map (fun p => if p.1 = c then (p.1, f p.2) else p) }

/-- Apply a per-column transform to each listed column in turn. -/
def applyCols (t : Table) (cols : List String) (f : Col → Col) : Table :=
  cols.foldl (fun acc c => acc.mapCol c f) t

/-- The union (dedup, first-seen order) of the columns of all issues of a
given type. -/
def issueColsOfType (issues : List Issue) (ty : String) : List String :=
  issues.foldl (fun acc it => if it.type = ty then it.columns.foldl insertUniq acc else acc) []

/-- The column sets of `duplicate_rows` issues (empty sets skipped). -/
def duplicateColSets (issues : List Issue) : List (List String) :=
  issues.filterMap (fun it =>
    if it.type = "duplicate_rows" && !it.columns.isEmpty then some it.columns else none)

/-- All value-level transforms of the fixer, in source order (missing-high
fill, email masking, dtype coercion, date standardization), before any
deduplication.  The date-like set is computed from the original table, as
in the source; the per-column try/except around date standardization never
fires in the model (the transform is total). -/
def preDedupeTable (t : Table) (issues : List Issue) : Table :=
  let t1 := applyCols t (issueColsOfType issues "missing_high") fillMissingCol
  let t2 := applyCols t1 (issueColsOfType issues "invalid_email") maskEmailCol
  let t3 := applyCols t2 (issueColsOfType issues "dtype_mismatch") _coerce_numeric_if_mostly
  applyCols t3 (dateLikeCols t issues) _standardize_dates_series

/-- The fixer's change-accounting string view of cell `(c, i)`:
`fillna("__QORIQ_NAN__").astype(str)`. -/
def sentAt (t : Table) (c : String) (i : Nat) : String :=
  (((t.getCol? c).getD (Col.object [])).sentStrs).getD i "__QORIQ_NAN__"

/-- Did row `i` change in any column between the original and the
pre-deduplication cleaned table? -/
def rowChanged (orig pre : Table) (i : Nat) : Bool :=
  orig.names.any (fun c => sentAt orig c i ≠ sentAt pre c i)

/-- Per-column changed-cell count across the entire table. -/
def perColCount (orig pre : Table) (c : String) : Nat :=
  ((List.range orig.nrows).filter (fun i => sentAt orig c i ≠ sentAt pre c i)).length

/-- The tuple of values of row `i` under the given columns, for
`duplicated` (NaN equal to NaN). -/
def rowKey (t : Table) (cols : List String) (i : Nat) : List (Option (Frac ⊕ String)) :=
  cols.map (fun c => ((t.getCol? c).getD (Col.object [])).cellAt i)

/-- `duplicated(subset=cols, keep="first")` at row `i`. -/
def dupMask (t : Table) (cols : List String) (i : Nat) : Bool :=
  (List.range i).any (fun j => rowKey t cols j = rowKey t cols i)

/-- Keep the elements whose position satisfies `keep`. -/
def filterIdxList {α : Type} (v : List α) (keep : Nat → Bool) : List α :=
  (v.enum.filter (fun q => keep q.1)).map Prod.snd

def Col.filterIdx (c : Col) (keep : Nat → Bool) : Col :=
  match c with
  | .numeric v => .numeric (filterIdxList v keep)
  | .object v => .object (filterIdxList v keep)

/-- Row selection by positional mask (`df.loc[mask]` on a positional
index). -/
def Table.filterRows (t : Table) (keep : Nat → Bool) : Table :=
  { nrows := ((List.range t.nrows).filter keep).length
    cols := t.cols.map (fun p => (p.1, p.2.filterIdx keep)) }

/-- `str(x)` of a raw cell value, for the preview's difference test. -/
def cellPyStr (x : Option (Frac ⊕ String)) : String :=
  match x with
  | none => "nan"
  | some (Sum.inl q) => ratStr q
  | some (Sum.inr s) => s

/-- One preview row: the original index and, per differing column, the
(before, after) raw values (`none` is the explicit null for missing). -/
structure ChangeRec where
  orig_index : Nat
  diffs : List (String × (Option (Frac ⊕ String)) × (Option (Frac ⊕ String)))
deriving DecidableEq, Repr

/-- The differing columns of row `i` by the preview's test: skipped when
both sides are missing or their `str()` forms agree. -/
def previewDiffs (orig pre : Table) (i : Nat) : List (String × (Option (Frac ⊕ String)) × (Option (Frac ⊕ String))) :=
  orig.cols.filterMap (fun p =>
    let b := ((orig.getCol? p.1).getD (Col.object [])).cellAt i
    let a := ((pre.getCol? p.1).getD (Col.object [])).cellAt i
    if (b.isNone && a.isNone) || cellPyStr b = cellPyStr a then none
    else some (p.1, b, a))

/-- The fix summary dict.  `date_columns_standardized` is `none` when the
key is absent from the returned dict (the degenerate zero-row branch omits
it). -/
structure FixSummary where
  per_column_changed : List (String × Nat)
  rows_removed : Nat
  rows_changed_total : Nat
  preview_changed_rows_returned : Nat
  preview_changed_limit : Nat
  date_columns_standardized : Option (List String)
deriving DecidableEq, Repr

/-- The fixer's accounting tail, shared by the pure function and the
object-store embedding: change counts, dedup, preview and summary, from the
original and pre-deduplication tables. -/
def finishFixer (orig pre : Table) (issues : List Issue) (dateCols : List String)
    (max_preview_rows : Nat) : Table × FixSummary × List ChangeRec × Table :=
  let perColAll := orig.cols.map (fun p => (p.1, perColCount orig pre p.1))
  let dupSets := duplicateColSets issues
  let unionCols := uniqList dupSets.flatten
  let hasDedup := !dupSets.isEmpty && !unionCols.isEmpty
  let removed := if hasDedup then orig.filterRows (dupMask orig unionCols)
    else orig.filterRows (fun _ => false)
  let cleaned := if hasDedup then pre.filterRows (fun i => !dupMask pre unionCols i) else pre
  let changedIdx := (List.range orig.nrows).filter (rowChanged orig pre)
  let preview := (changedIdx.take max_preview_rows).filterMap (fun i =>
    let ds := previewDiffs orig pre i
    if ds.isEmpty then none else some (ChangeRec.mk i ds))
  (cleaned,
   { per_column_changed := perColAll.filter (fun q => 0 < q.2)
     rows_removed := removed.nrows
     rows_changed_total := changedIdx.length + removed.nrows
     preview_changed_rows_returned := preview.length
     preview_changed_limit := max_preview_rows
     date_columns_standardized := some dateCols },
   preview, removed)

/-- `generate_naive_clean_with_summary(df, issues, max_preview_rows)` from
`src/fixer.py`: returns (cleaned table, summary, preview, removed rows). -/
def generate_naive_clean_with_summary (t : Table) (issues : List Issue)
    (max_preview_rows : Nat) : Table × FixSummary × List ChangeRec × Table :=
  if t.nrows = 0 then
    (t, { per_column_changed := [], rows_removed := 0, rows_changed_total := 0
          preview_changed_rows_returned := 0, preview_changed_limit := max_preview_rows
          date_columns_standardized := none }, [], { nrows := 0, cols := [] })
  else
    finishFixer t (preDedupeTable t issues) issues (dateLikeCols t issues) max_preview_rows

/-! ## Object-store model

Pandas DataFrames are heap objects; `df.copy()` allocates a fresh one and
the fixer's `pre_dedupe[c] = ...` / `.loc[...] = ...` statements mutate the
copy in place.  To state the frame claim (no core operation mutates its
input), operations are replayed against an explicit store of tables: each
function receives the store and the index of its argument object, and
performs exactly the writes the source performs.  `profile_dataframe`,
`detect_issues` and `score_dataframe` contain no mutating statement
(`df.copy()` and the non-inplace `df.replace` return new objects), so
their store versions perform no write. -/

structure Store where
  tabs : List Table
deriving Repr

def Store.read (s : Store) (i : Nat) : Table := s.tabs.getD i { nrows := 0, cols := [] }

def Store.alloc (s : Store) (t : Table) : Store × Nat := (⟨s.tabs ++ [t]⟩, s.tabs.length)

def Store.write (s : Store) (i : Nat) (t : Table) : Store := ⟨s.tabs.set i t⟩

/-- `profile_dataframe` only reads its argument. -/
def profileStore (s : Store) (i top_k : Nat) : Store × ProfileReport :=
  (s, profile_dataframe (s.read i) top_k)

/-- `detect_issues` only reads its argument. -/
def detectStore (s : Store) (i : Nat) (thresh : Frac) : Store × List Issue :=
  (s, detect_issues (s.read i) thresh)

/-- `score_dataframe` copies before normalizing; no write to the input. -/
def scoreStore (s : Store) (i : Nat) : Store × ScoreReport :=
  (s, score_dataframe (s.read i))

/-- One of the fixer's per-column transform loops: each iteration writes
the transformed column back into the object at index `i`. -/
def writeApplyCols (s : Store) (i : Nat) (cols : List String) (f : Col → Col) : Store :=
  cols.foldl (fun st c => st.write i ((st.read i).mapCol c f)) s

/-- The fixer replayed against the store: `orig = df.copy()` and
`pre_dedupe = orig.copy()` allocate, the four transform loops write into
the `pre_dedupe` object, and everything else only reads. -/
def fixerStore (s : Store) (dfId : Nat) (issues : List Issue) (m : Nat) :
    Store × (Table × FixSummary × List ChangeRec × Table) :=
  let df := s.read dfId
  if df.nrows = 0 then
    (s, generate_naive_clean_with_summary df issues m)
  else
    let a1 := s.alloc df
    let a2 := a1.1.alloc (a1.1.read a1.2)
    let origId := a1.2
    let preId := a2.2
    let s2 := a2.1
    let dateCols := dateLikeCols (s2.read origId) issues
    let s3 := writeApplyCols s2 preId (issueColsOfType issues "missing_high") fillMissingCol
    let s4 := writeApplyCols s3 preId (issueColsOfType issues "invalid_email") maskEmailCol
    let s5 := writeApplyCols s4 preId (issueColsOfType issues "dtype_mismatch") _coerce_numeric_if_mostly
    let s6 := writeApplyCols s5 preId (dateLikeCols (s2.read origId) issues) _standardize_dates_series
    (s6, finishFixer (s6.read origId) (s6.read preId) issues dateCols m)

/-! ## Auxiliary definitions used to state claims -/

/-- Overwrite one cell of an object-dtyped column (positional column index
`ci`, row `ri`); numeric columns and out-of-range positions are left
unchanged.  Used to state the missing-normalization claim ("the same table
with that cell set to …"). -/
def setObjCellCols : List (String × Col) → Nat → Nat → Option String → List (String × Col)
  | [], _, _, _ => []
  | p :: rest, 0, ri, x =>
    (match p with
     | (name, Col.object v) => (name, Col.object (v.set ri x))
     | q => q) :: rest
  | p :: rest, ci + 1, ri, x => p :: setObjCellCols rest ci ri x

def Table.setObjCell (t : Table) (ci ri : Nat) (x : Option String) : Table :=
  { t with cols := setObjCellCols t.cols ci ri x }

/-- The claim's change count: the number of row positions where at least
one column's string representation differs between the original table and
the pre-deduplication cleaned table. -/
def specChangedRows (orig pre : Table) : Nat :=
  ((List.range orig.nrows).filter
    (fun i => decide (∃ p ∈ orig.cols, sentAt orig p.1 i ≠ sentAt pre p.1 i))).length

/-! ## Helper lemmas -/

theorem maskEmailCell_mask {s : String} (h1 : strHasChar s '@' = true)
    (h2 : validEmail s = false) : maskEmailCell (some s) = some "" := by
  simp [maskEmailCell, h1, h2]

theorem maskEmailCell_keep_noAt {s : String} (h : strHasChar s '@' = false) :
    maskEmailCell (some s) = some s := by
  simp [maskEmailCell, h]

theorem stdDateCell_not_marker {s : String} (hm : s ∉ nullMarkers) :
    stdDateCell (some s) =
      (match to_datetime false s with
       | some d => some (isoStr d)
       | none => match to_datetime true s with
         | some d => some (isoStr d)
         | none => some s) := by
  have hc : nullMarkers.contains s = false := by
    simpa [List.contains] using hm
  simp only [stdDateCell, hc, Bool.false_eq_true, if_false]

theorem setObjCellCols_isEmpty (l : List (String × Col)) (ci ri : Nat) (x : Option String) :
    (setObjCellCols l ci ri x).isEmpty = l.isEmpty := by
  cases l with
  | nil => cases ci <;> rfl
  | cons p rest => cases ci <;> rfl

theorem normCols_set_empty (l : List (String × Col)) (ci ri : Nat) :
    (setObjCellCols l ci ri (some "")).map (fun p => (p.1, p.2.normalizeMissing)) =
      (setObjCellCols l ci ri none).map (fun p => (p.1, p.2.normalizeMissing)) := by
  induction l generalizing ci with
  | nil => rfl
  | cons p rest ih =>
    cases ci with
    | zero =>
      obtain ⟨name, c⟩ := p
      cases c with
      | object v =>
        simp only [setObjCellCols, List.map_cons]
        congr 2
        simp only [Col.normalizeMissing, List.map_set]
        rfl
      | numeric v => rfl
    | succ ci' =>
      simp only [setObjCellCols, List.map_cons]
      rw [ih]

theorem fracChoose_go (g : Frac → Frac → Frac) (xs : List Frac) (q : Frac) :
    ∃ r, xs.foldl (fun acc x => match acc with
      | none => some x
      | some m => some (g x m)) (some q) = some r := by
  induction xs generalizing q with
  | nil => exact ⟨q, rfl⟩
  | cons x xs ih => simpa using ih (g x q)

theorem fracMin_cons (x : Frac) (xs : List Frac) : ∃ r, fracMin (x :: xs) = some r := by
  simpa [fracMin] using fracChoose_go (fun a m => if Frac.le a m then a else m) xs x

theorem fracMax_cons (x : Frac) (xs : List Frac) : ∃ r, fracMax (x :: xs) = some r := by
  simpa [fracMax] using fracChoose_go (fun a m => if Frac.le m a then a else m) xs x

/-! ## Claim theorems -/

/-- C1.  The claim states the central monotonicity invariant: for every
table, cleaning the issues detected on it never lowers the overall quality
score, the completeness component, or the safety component.  The code
violates it: on a single email column `["a@b.com", "x@"]`, `detect_issues`
flags `invalid_email`, the fixer masks `"x@"` to the empty string, and the
scorer — which reinterprets empty strings as missing — reports completeness
dropping from 100 to 50 and overall quality from 100 to 75 (safety stays
100).  This theorem evaluates the code at that failing input. -/
theorem C1_quality_degrades_on_email_mask :
    (let t : Table := ⟨2, [("email", Col.object [some "a@b.com", some "x@"])]⟩
     let cleaned := (generate_naive_clean_with_summary t
       (detect_issues t (Frac.norm 1 5)) 200).1
     Frac.lt (score_dataframe cleaned).quality (score_dataframe t).quality = true ∧
     Frac.lt (score_dataframe cleaned).completeness
       (score_dataframe t).completeness = true ∧
     (score_dataframe cleaned).safety = (score_dataframe t).safety ∧
     (score_dataframe t).quality = Frac.ofNat 100 ∧
     (score_dataframe cleaned).quality = Frac.ofNat 75) := by
  decide

/-- C2, counterexample.  The claim says every non-missing value failing
both parse attempts is preserved verbatim and never converted to missing;
but the standardizer first normalizes the null marker `"NA"` (a non-missing
value that no parse attempt accepts) to missing. -/
theorem C2_null_marker_counterexample :
    to_datetime false "NA" = none ∧ to_datetime true "NA" = none ∧
    _standardize_dates_series (Col.object [some "NA"]) = Col.object [none] := by
  decide

/-- C2, amended.  In date standardization, every non-missing value other
than the explicit null markers `"NA"/"N/A"/"null"/"None"` that fails both
parse attempts is kept exactly as its original text; the null markers are
converted to missing; every value that parses (directly or on the day-first
retry) is rewritten as ISO `YYYY-MM-DD`; missing stays missing.  In
particular `"unclear_date"` is preserved verbatim and `"15/03/2023"`
becomes `"2023-03-15"`. -/
theorem C2_date_fallback_amended :
    (∀ s : String, s ∉ nullMarkers → to_datetime false s = none →
      to_datetime true s = none → stdDateCell (some s) = some s) ∧
    (∀ (s : String) (d : Date), s ∉ nullMarkers → to_datetime false s = some d →
      stdDateCell (some s) = some (isoStr d)) ∧
    (∀ (s : String) (d : Date), s ∉ nullMarkers → to_datetime false s = none →
      to_datetime true s = some d → stdDateCell (some s) = some (isoStr d)) ∧
    (∀ s : String, s ∈ nullMarkers → stdDateCell (some s) = none) ∧
    stdDateCell none = none ∧
    (∀ v : List (Option String),
      _standardize_dates_series (Col.object v) = Col.object (v.map stdDateCell)) ∧
    stdDateCell (some "unclear_date") = some "unclear_date" ∧
    stdDateCell (some "15/03/2023") = some "2023-03-15" := by
  refine ⟨?_, ?_, ?_, ?_, rfl, fun v => rfl, by decide, by decide⟩
  · intro s hm h1 h2
    rw [stdDateCell_not_marker hm, h1, h2]
  · intro s d hm h1
    rw [stdDateCell_not_marker hm, h1]
  · intro s d hm h1 h2
    rw [stdDateCell_not_marker hm, h1, h2]
  · intro s hm
    have hc : nullMarkers.contains s = true := by
      simpa [List.contains] using hm
    simp only [stdDateCell, hc, if_true]

/-- C2, witness: the amended theorem applied at concrete inputs. -/
theorem C2_date_fallback_witness :
    stdDateCell (some "unclear_date") = some "unclear_date" ∧
    stdDateCell (some "15/03/2023") = some (isoStr ⟨2023, 3, 15⟩) ∧
    stdDateCell (some "NA") = none :=
  ⟨C2_date_fallback_amended.1 "unclear_date" (by decide) (by decide) (by decide),
   C2_date_fallback_amended.2.2.1 "15/03/2023" ⟨2023, 3, 15⟩ (by decide) (by decide)
     (by decide),
   C2_date_fallback_amended.2.2.2.1 "NA" (by decide)⟩

/-- C7, counterexample.  The claim's concrete scenario asserts that on
`email = ["a@b.com", "not-an-email", "c@d.org"]` the fixer rewrites row 1
to the empty string and reports `per_column_changed["email"] == 1`; but
`"not-an-email"` contains no `@`, so by the same claim's general rule it is
left untouched: the cleaned table equals the input and `per_column_changed`
has no entry for `"email"`. -/
theorem C7_scenario_counterexample :
    (let t : Table := ⟨3, [("email",
       Col.object [some "a@b.com", some "not-an-email", some "c@d.org"])]⟩
     let issues := detect_issues t (Frac.norm 1 5)
     issues.map Issue.type = ["invalid_email"] ∧
     (generate_naive_clean_with_summary t issues 200).1 = t ∧
     (generate_naive_clean_with_summary t issues 200).2.1.per_column_changed.lookup "email"
       = none) := by
  decide

/-- C7, amended.  For a column named by an `invalid_email` issue the fixer
replaces with the empty string exactly those values that contain `@` and
fail the strict pattern, leaves every value without `@` (and every valid
email, and every missing cell) untouched; in the claim's concrete scenario
nothing contains `@` while failing the pattern, so the column is unchanged
and `per_column_changed` is empty. -/
theorem C7_email_mask_amended :
    (∀ v : List (Option String), maskEmailCol (Col.object v) = Col.object (v.map maskEmailCell)) ∧
    (∀ s : String, strHasChar s '@' = true → validEmail s = false →
      maskEmailCell (some s) = some "") ∧
    (∀ s : String, strHasChar s '@' = false → maskEmailCell (some s) = some s) ∧
    (∀ s : String, validEmail s = true → maskEmailCell (some s) = some s) ∧
    maskEmailCell none = none ∧
    (let t : Table := ⟨3, [("email",
       Col.object [some "a@b.com", some "not-an-email", some "c@d.org"])]⟩
     (generate_naive_clean_with_summary t (detect_issues t (Frac.norm 1 5)) 200).1 = t ∧
     (generate_naive_clean_with_summary t (detect_issues t (Frac.norm 1 5)) 200).2.1.per_column_changed = []) := by
  refine ⟨fun v => rfl, ?_, ?_, ?_, rfl, by decide⟩
  · intro s h1 h2
    exact maskEmailCell_mask h1 h2
  · intro s h
    exact maskEmailCell_keep_noAt h
  · intro s h
    simp [maskEmailCell, h]

/-- C7, witness: the amended theorem applied at concrete inputs. -/
theorem C7_email_mask_witness :
    maskEmailCell (some "x@") = some "" ∧
    maskEmailCell (some "not-an-email") = some "not-an-email" ∧
    maskEmailCell (some "a@b.com") = some "a@b.com" :=
  ⟨C7_email_mask_amended.2.1 "x@" (by decide) (by decide),
   C7_email_mask_amended.2.2.1 "not-an-email" (by decide),
   C7_email_mask_amended.2.2.2.1 "a@b.com" (by decide)⟩

/-- C9, counterexample.  The claim says the zero-row summary contains all
`FixSummary` fields with `date_columns_standardized` as an empty list; but
the degenerate branch builds its summary dict without that key at all. -/
theorem C9_missing_key_counterexample :
    (generate_naive_clean_with_summary ⟨0, [("a", Col.object [])]⟩ [] 200).2.1.date_columns_standardized = none := by
  decide

/-- C9, amended.  For a zero-row input the fixer returns the table itself
unchanged, a zero-valued summary carrying the five counters and the given
preview limit but no `date_columns_standardized` key, an empty preview,
and an empty (zero-column) removed-rows frame. -/
theorem C9_empty_table_amended (t : Table) (issues : List Issue) (m : Nat)
    (h : t.nrows = 0) :
    generate_naive_clean_with_summary t issues m =
      (t, { per_column_changed := [], rows_removed := 0, rows_changed_total := 0
            preview_changed_rows_returned := 0, preview_changed_limit := m
            date_columns_standardized := none }, [],
       ({ nrows := 0, cols := [] } : Table)) := by
  simp [generate_naive_clean_with_summary, h]

/-- C9, witness: the amended theorem at a concrete zero-row table. -/
theorem C9_empty_table_witness :
    generate_naive_clean_with_summary ⟨0, [("a", Col.object []), ("b", Col.numeric [])]⟩ [] 7 =
      (⟨0, [("a", Col.object []), ("b", Col.numeric [])]⟩,
       { per_column_changed := [], rows_removed := 0, rows_changed_total := 0
         preview_changed_rows_returned := 0, preview_changed_limit := 7
         date_columns_standardized := none }, [], ({ nrows := 0, cols := [] } : Table)) :=
  C9_empty_table_amended ⟨0, [("a", Col.object []), ("b", Col.numeric [])]⟩ [] 7 rfl

/-- C4, counterexample.  The claim includes whitespace-only strings in the
normalization, but the scorer only replaces exactly-empty strings
(`df.replace("", np.nan)`): a cell holding `" "` scores as present while
the same cell set to missing scores as absent, so completeness differs. -/
theorem C4_whitespace_counterexample :
    (score_dataframe (Table.setObjCell ⟨1, [("a", Col.object [some "x"])]⟩ 0 0 (some " "))).completeness ≠
      (score_dataframe (Table.setObjCell ⟨1, [("a", Col.object [some "x"])]⟩ 0 0 none)).completeness := by
  decide

/-- C4, amended.  For every table, cell position, and every component of
the score (the whole report, hence in particular completeness, consistency
and the overall score): scoring the table with that cell holding the
exactly-empty string equals scoring it with the cell set to missing —
scoring first normalizes exactly-empty (but not whitespace-only) strings
to missing. -/
theorem C4_empty_equals_missing_amended (t : Table) (ci ri : Nat) :
    score_dataframe (t.setObjCell ci ri (some "")) =
      score_dataframe (t.setObjCell ci ri none) := by
  have h2 : (t.setObjCell ci ri (some "")).cols.isEmpty
      = (t.setObjCell ci ri none).cols.isEmpty := by
    simp [Table.setObjCell, setObjCellCols_isEmpty]
  have h3 : normalizeTable (t.setObjCell ci ri (some "")) =
      normalizeTable (t.setObjCell ci ri none) := by
    simp only [normalizeTable, Table.setObjCell]
    exact congrArg (fun cs => Table.mk t.nrows cs) (normCols_set_empty t.cols ci ri)
  unfold score_dataframe
  rw [show (t.setObjCell ci ri (some "")).nrows = (t.setObjCell ci ri none).nrows from rfl,
    h2, h3]

/-- C8, counterexample.  For a numeric column with exactly one non-missing
value the profiler reports the standard deviation as the float NaN — a
present (if non-finite) value — rather than as absent: the claim's "std is
reported as absent" fails. -/
theorem C8_single_value_std_is_nan :
    (profile_dataframe ⟨1, [("x", Col.numeric [some (Frac.ofNat 5)])]⟩ 10).columns.map
      (fun p => p.2.num_stats.map (fun q => q.2.2.2)) = [some PyVal.nan] := by
  decide

/-- C8, amended.  For a numeric column: with zero non-missing values all
four numeric stats are reported as the Python `None`; with exactly one
non-missing value min/max/mean are finite numbers but std is the float
NaN (not absent, not 0, not a finite number); with two or more non-missing
values min, max, mean and std are all reported as finite numbers. -/
theorem C8_profiler_std_amended (t : Table) (k i : Nat) (name : String)
    (vals : List (Option Frac)) (h : t.cols[i]? = some (name, Col.numeric vals)) :
    ∃ r, (profile_dataframe t k).columns[i]? = some (name, r) ∧
      ((vals.filterMap id).length = 0 →
        r.num_stats = some (PyVal.null, PyVal.null, PyVal.null, PyVal.null)) ∧
      ((vals.filterMap id).length = 1 →
        ∃ a b c, r.num_stats = some (PyVal.num a, PyVal.num b, PyVal.num c, PyVal.nan)) ∧
      (2 ≤ (vals.filterMap id).length →
        ∃ a b c d, r.num_stats = some (PyVal.num a, PyVal.num b, PyVal.num c, PyVal.num d)) := by
  refine ⟨profileCol (Col.numeric vals) k, ?_, ?_, ?_, ?_⟩
  · show (t.cols.map (fun p => (p.1, profileCol p.2 k)))[i]? = _
    rw [List.getElem?_map, h]
    rfl
  · intro h0
    have : vals.filterMap id = [] := List.length_eq_zero.mp h0
    simp [profileCol, this]
  · intro h1
    obtain ⟨x, hx⟩ := List.length_eq_one.mp h1
    refine ⟨x, x, fracMean [x], ?_⟩
    simp [profileCol, hx, fracMin, fracMax, stdSlot]
  · intro h2
    have hne : vals.filterMap id ≠ [] := by
      intro hnil
      rw [hnil] at h2
      exact absurd h2 (by decide)
    obtain ⟨x, xs, hx⟩ := List.exists_cons_of_ne_nil hne
    obtain ⟨a, ha⟩ := fracMin_cons x xs
    obtain ⟨b, hb⟩ := fracMax_cons x xs
    refine ⟨a, b, fracMean (vals.filterMap id), sampleVar (vals.filterMap id), ?_⟩
    have hlen : ¬ (vals.filterMap id).length ≤ 1 := by omega
    have hxs : xs ≠ [] := by
      intro hxe
      rw [hxe] at hx
      rw [hx] at h2
      simp at h2
    simp [profileCol, stdSlot, hx, hlen, ha, hb, hxs]

/-- C8, witness: the amended theorem applied at a concrete two-value
column. -/
theorem C8_profiler_std_witness :
    ∃ r, (profile_dataframe ⟨2, [("x", Col.numeric [some (Frac.ofNat 1), some (Frac.ofNat 3)])]⟩ 10).columns[0]? = some ("x", r) ∧
      (([some (Frac.ofNat 1), some (Frac.ofNat 3)].filterMap
          (id : Option Frac → Option Frac)).length = 0 →
        r.num_stats = some (PyVal.null, PyVal.null, PyVal.null, PyVal.null)) ∧
      (([some (Frac.ofNat 1), some (Frac.ofNat 3)].filterMap
          (id : Option Frac → Option Frac)).length = 1 →
        ∃ a b c, r.num_stats = some (PyVal.num a, PyVal.num b, PyVal.num c, PyVal.nan)) ∧
      (2 ≤ ([some (Frac.ofNat 1), some (Frac.ofNat 3)].filterMap
          (id : Option Frac → Option Frac)).length →
        ∃ a b c d, r.num_stats = some (PyVal.num a, PyVal.num b, PyVal.num c, PyVal.num d)) :=
  C8_profiler_std_amended ⟨2, [("x", Col.numeric [some (Frac.ofNat 1), some (Frac.ofNat 3)])]⟩
    10 0 "x" [some (Frac.ofNat 1), some (Frac.ofNat 3)] (by decide)

theorem specChangedRows_eq (orig pre : Table) :
    specChangedRows orig pre =
      ((List.range orig.nrows).filter (rowChanged orig pre)).length := by
  unfold specChangedRows
  congr 1
  apply List.filter_congr
  intro i _
  rw [Bool.eq_iff_iff]
  simp [rowChanged, Table.names, List.any_map, List.any_eq_true, Function.comp]

theorem dedupIssues_not_seen (l : List Issue) :
    ∀ (seen : List (String × List String)) it, it ∈ dedupIssues seen l → issueKey it ∉ seen := by
  induction l with
  | nil =>
    intro seen it h
    simp [dedupIssues] at h
  | cons a rest ih =>
    intro seen it h
    simp only [dedupIssues] at h
    split at h
    · exact ih seen it h
    · rename_i hk
      rcases List.mem_cons.mp h with heq | hmem
      · rw [heq]
        exact hk
      · have hni := ih (issueKey a :: seen) it hmem
        intro hin
        exact hni (List.mem_cons_of_mem _ hin)

theorem dedupIssues_pairwise (l : List Issue) :
    ∀ seen, (dedupIssues seen l).Pairwise (fun a b => issueKey a ≠ issueKey b) := by
  induction l with
  | nil =>
    intro seen
    simp [dedupIssues]
  | cons a rest ih =>
    intro seen
    simp only [dedupIssues]
    split
    · exact ih seen
    · refine List.Pairwise.cons ?_ (ih _)
      intro b hb heq
      have hni := dedupIssues_not_seen rest (issueKey a :: seen) b hb
      exact hni (heq ▸ List.mem_cons_self _ _)

/-- C3.  For every non-empty input table and issue list, the summary of
`generate_naive_clean_with_summary` satisfies
`rows_changed_total = |rows where some column's string representation
differs between the original and the pre-deduplication cleaned table| +
rows_removed`, and `rows_removed` is the row count of the returned
removed-rows table (the rows captured by deduplication). -/
theorem C3_change_accounting (t : Table) (issues : List Issue) (m : Nat)
    (h : t.nrows ≠ 0) :
    ((generate_naive_clean_with_summary t issues m).2.1.rows_changed_total =
      specChangedRows t (preDedupeTable t issues) +
        (generate_naive_clean_with_summary t issues m).2.1.rows_removed) ∧
    (generate_naive_clean_with_summary t issues m).2.1.rows_removed =
      (generate_naive_clean_with_summary t issues m).2.2.2.nrows := by
  rw [specChangedRows_eq]
  unfold generate_naive_clean_with_summary
  rw [if_neg h]
  exact ⟨rfl, rfl⟩

/-- C3, witness: the accounting identity at a concrete one-row table. -/
theorem C3_change_accounting_witness :
    ((generate_naive_clean_with_summary ⟨1, [("a", Col.object [some "x"])]⟩ [] 5).2.1.rows_changed_total =
      specChangedRows ⟨1, [("a", Col.object [some "x"])]⟩
        (preDedupeTable ⟨1, [("a", Col.object [some "x"])]⟩ []) +
        (generate_naive_clean_with_summary ⟨1, [("a", Col.object [some "x"])]⟩ [] 5).2.1.rows_removed) ∧
    (generate_naive_clean_with_summary ⟨1, [("a", Col.object [some "x"])]⟩ [] 5).2.1.rows_removed =
      (generate_naive_clean_with_summary ⟨1, [("a", Col.object [some "x"])]⟩ [] 5).2.2.2.nrows :=
  C3_change_accounting ⟨1, [("a", Col.object [some "x"])]⟩ [] 5 (by decide)

/-- C6.  For every input table and missing threshold, `detect_issues`
returns no two issues with an identical (title, columns) pair: the output
is pairwise distinct on `issueKey`. -/
theorem C6_issue_dedup (t : Table) (missing_threshold : Frac) :
    (detect_issues t missing_threshold).Pairwise (fun a b => issueKey a ≠ issueKey b) :=
  dedupIssues_pairwise _ []

theorem filterMap_congr_some {α β : Type} (f : α → Option β) (g : α → β) (l : List α)
    (h : ∀ a ∈ l, f a = some (g a)) : l.filterMap f = l.map g := by
  induction l with
  | nil => rfl
  | cons a rest ih =>
    simp only [List.filterMap_cons, h a (List.mem_cons_self a rest), List.map_cons]
    rw [ih (fun b hb => h b (List.mem_cons_of_mem _ hb))]

theorem dedupIssues_of_nodup (l : List Issue) :
    ∀ seen, (∀ it ∈ l, issueKey it ∉ seen) →
      l.Pairwise (fun a b => issueKey a ≠ issueKey b) → dedupIssues seen l = l := by
  induction l with
  | nil =>
    intro seen _ _
    rfl
  | cons a rest ih =>
    intro seen hs hp
    simp only [dedupIssues]
    rw [if_neg (hs a (List.mem_cons_self a rest))]
    congr 1
    apply ih
    · intro it hit hin
      rcases List.mem_cons.mp hin with heq | hseen
      · exact (List.pairwise_cons.mp hp).1 it hit heq.symm
      · exact hs it (List.mem_cons_of_mem _ hit) hseen
    · exact (List.pairwise_cons.mp hp).2

theorem _high_missing_zero (t : Table) (thresh : Frac) (h0 : t.nrows = 0) :
    _high_missing t thresh = [] := by
  apply List.filterMap_eq_nil_iff.mpr
  intro p _
  simp [_high_missing, h0, Frac.lt, Frac.ofNat]

theorem _duplicates_zero (t : Table) (hl : ∀ p ∈ t.cols, p.2.len = 0) :
    _duplicates t = [] := by
  apply List.filterMap_eq_nil_iff.mpr
  intro p hp
  simp [_duplicates, dupCountCol, hl p hp]

theorem _dtype_mismatch_zero (t : Table) (h0 : t.nrows = 0) :
    _dtype_mismatch t = [] := by
  apply List.filterMap_eq_nil_iff.mpr
  intro p _
  cases hc : p.2 with
  | numeric v => simp [_dtype_mismatch, hc]
  | object v => simp [_dtype_mismatch, hc, h0]

theorem col_object_nil_of_len {v : List (Option String)} (h : Col.len (Col.object v) = 0) :
    v = [] :=
  List.length_eq_zero.mp h

theorem col_numeric_nil_of_len {v : List (Option Frac)} (h : Col.len (Col.numeric v) = 0) :
    v = [] :=
  List.length_eq_zero.mp h

theorem _invalid_emails_zero (t : Table) (hl : ∀ p ∈ t.cols, p.2.len = 0) :
    _invalid_emails t = [] := by
  apply List.filterMap_eq_nil_iff.mpr
  intro p hp
  cases hc : p.2 with
  | numeric v => simp [_invalid_emails, hc]
  | object v =>
    have hv : v = [] := col_object_nil_of_len (hc ▸ hl p hp)
    simp [_invalid_emails, hc, hv, Col.dropnaStr]

theorem _date_parse_zero (t : Table) (hl : ∀ p ∈ t.cols, p.2.len = 0) :
    _date_parse_issues t = [] := by
  apply List.filterMap_eq_nil_iff.mpr
  intro p hp
  cases hc : p.2 with
  | numeric v => simp [_date_parse_issues, hc]
  | object v =>
    have hv : v = [] := col_object_nil_of_len (hc ▸ hl p hp)
    simp [_date_parse_issues, hc, hv, Col.dropnaStr]

theorem _outliers_zero (t : Table) (hl : ∀ p ∈ t.cols, p.2.len = 0) :
    _outliers t = [] := by
  apply List.filterMap_eq_nil_iff.mpr
  intro p hp
  cases hc : p.2 with
  | object v => simp [_outliers, hc]
  | numeric v =>
    have hv : v = [] := col_numeric_nil_of_len (hc ▸ hl p hp)
    simp [_outliers, hc, hv]

theorem _constant_columns_zero (t : Table) (hl : ∀ p ∈ t.cols, p.2.len = 0) :
    _constant_columns t = t.cols.map (fun p => constantColIssue p.1 0) := by
  apply filterMap_congr_some
  intro p hp
  have hn : p.2.nunique = 0 := by
    cases hc : p.2 with
    | numeric v =>
      have hv : v = [] := col_numeric_nil_of_len (hc ▸ hl p hp)
      simp [Col.nunique, hv, uniqList, uniqAux]
    | object v =>
      have hv : v = [] := col_object_nil_of_len (hc ▸ hl p hp)
      simp [Col.nunique, hv, uniqList, uniqAux]
  rw [hn]
  rfl

/-- C5, counterexample.  On a zero-row table with one column,
`detect_issues` is not empty: the constant-column heuristic flags every
column (`nunique = 0 ≤ 1`), contradicting the claim's "empty issue
list". -/
theorem C5_zero_row_counterexample :
    detect_issues ⟨0, [("a", Col.object [])]⟩ (Frac.norm 1 5) ≠ [] := by
  decide

/-- C5, amended.  For every zero-row well-formed table and every
threshold: `detect_issues` returns exactly one `constant_column` issue per
column (so an empty list exactly when there are no columns), and
`score_dataframe` returns the neutral perfect score (every component and
the overall quality at 100.0 on the code's percent scale); both operations
are total. -/
theorem C5_zero_rows_amended (t : Table) (thresh : Frac) (hwf : t.WF)
    (h0 : t.nrows = 0) :
    detect_issues t thresh = t.cols.map (fun p => constantColIssue p.1 0) ∧
    score_dataframe t = perfectScore := by
  have hl : ∀ p ∈ t.cols, p.2.len = 0 := fun p hp => (hwf.1 p hp).trans h0
  constructor
  · unfold detect_issues
    rw [_high_missing_zero t thresh h0, _duplicates_zero t hl, _dtype_mismatch_zero t h0,
      _invalid_emails_zero t hl, _date_parse_zero t hl, _constant_columns_zero t hl,
      _outliers_zero t hl]
    simp only [List.nil_append, List.append_nil]
    apply dedupIssues_of_nodup
    · intro it _ hin
      cases hin
    · have hp1 : t.cols.Pairwise (fun a b => a.1 ≠ b.1) := List.pairwise_map.mp hwf.2
      refine List.pairwise_map.mpr (hp1.imp ?_)
      intro a b hab heq
      apply hab
      simpa [constantColIssue, issueKey] using congrArg Prod.snd heq
  · simp [score_dataframe, h0]

/-- C5, witness: the amended theorem at a concrete zero-row two-column
table. -/
theorem C5_zero_rows_witness :
    detect_issues ⟨0, [("a", Col.object []), ("b", Col.numeric [])]⟩ (Frac.norm 1 5) =
      [constantColIssue "a" 0, constantColIssue "b" 0] ∧
    score_dataframe ⟨0, [("a", Col.object []), ("b", Col.numeric [])]⟩ = perfectScore :=
  C5_zero_rows_amended ⟨0, [("a", Col.object []), ("b", Col.numeric [])]⟩
    (Frac.norm 1 5) (by decide) rfl

theorem Store.read_write_ne (s : Store) (i j : Nat) (t : Table) (h : j ≠ i) :
    (s.write i t).read j = s.read j := by
  simp only [Store.read, Store.write, List.getD_eq_getElem?_getD]
  rw [List.getElem?_set_ne (Ne.symm h)]

theorem Store.write_length (s : Store) (i : Nat) (t : Table) :
    (s.write i t).tabs.length = s.tabs.length := by
  simp [Store.write]

theorem read_append_lt (l : List Table) (t : Table) (j : Nat) (h : j < l.length) :
    Store.read ⟨l ++ [t]⟩ j = Store.read ⟨l⟩ j := by
  simp only [Store.read]
  exact List.getD_append _ _ _ _ h

theorem writeApplyCols_read_ne (cols : List String) (f : Col → Col) :
    ∀ (s : Store) (i j : Nat), j ≠ i → (writeApplyCols s i cols f).read j = s.read j := by
  induction cols with
  | nil =>
    intro s i j _
    rfl
  | cons c rest ih =>
    intro s i j h
    show (writeApplyCols (s.write i ((s.read i).mapCol c f)) i rest f).read j = _
    rw [ih _ i j h, Store.read_write_ne _ _ _ _ h]

/-- C10.  None of the four core operations mutates its input table: in the
object-store model, `profile_dataframe`, `detect_issues` and
`score_dataframe` leave the store untouched, and the fixer — whose
transform loops write only into the freshly allocated `pre_dedupe` copy —
leaves every pre-existing object (in particular its input) unchanged. -/
theorem C10_no_input_mutation (s : Store) (i top_k j : Nat) (thresh : Frac)
    (issues : List Issue) (m : Nat) (hj : j < s.tabs.length) :
    (profileStore s i top_k).1 = s ∧ (detectStore s i thresh).1 = s ∧
    (scoreStore s i).1 = s ∧
    (fixerStore s i issues m).1.read j = s.read j := by
  refine ⟨rfl, rfl, rfl, ?_⟩
  unfold fixerStore
  dsimp only
  split
  · rfl
  · dsimp only [Store.alloc]
    have hne : j ≠ (s.tabs ++ [s.read i]).length := by
      simp only [List.length_append, List.length_singleton]
      omega
    rw [writeApplyCols_read_ne _ _ _ _ _ hne, writeApplyCols_read_ne _ _ _ _ _ hne,
      writeApplyCols_read_ne _ _ _ _ _ hne, writeApplyCols_read_ne _ _ _ _ _ hne]
    have hj1 : j < (s.tabs ++ [s.read i]).length := by
      simp only [List.length_append, List.length_singleton]
      omega
    rw [read_append_lt _ _ _ hj1, read_append_lt _ _ _ hj]

/-- C10, witness: the frame property at a concrete one-object store. -/
theorem C10_no_input_mutation_witness :
    (profileStore ⟨[⟨1, [("a", Col.object [some "x"])]⟩]⟩ 0 10).1 =
      ⟨[⟨1, [("a", Col.object [some "x"])]⟩]⟩ ∧
    (detectStore ⟨[⟨1, [("a", Col.object [some "x"])]⟩]⟩ 0 (Frac.norm 1 5)).1 =
      ⟨[⟨1, [("a", Col.object [some "x"])]⟩]⟩ ∧
    (scoreStore ⟨[⟨1, [("a", Col.object [some "x"])]⟩]⟩ 0).1 =
      ⟨[⟨1, [("a", Col.object [some "x"])]⟩]⟩ ∧
    (fixerStore ⟨[⟨1, [("a", Col.object [some "x"])]⟩]⟩ 0 [] 5).1.read 0 =
      Store.read ⟨[⟨1, [("a", Col.object [some "x"])]⟩]⟩ 0 :=
  C10_no_input_mutation ⟨[⟨1, [("a", Col.object [some "x"])]⟩]⟩ 0 10 0
    (Frac.norm 1 5) [] 5 (by decide)

end Qoriq
